import Mathlib

/-!
# Verification of the KineticJS `Stage` input-dispatch core

A shallow embedding of `src/src/Stage.js`: the per-stage interaction state
(target tracking, click/tap windowing, drag session), the per-shape decision
`_detectEvent`, the scene traversal `_traverseChildren` / `_handleStageEvent`,
the DOM-level handlers registered in `_listen` and `_prepareDrag`, and the
throttle and double-click timeout machinery.

Numbers: DOM coordinates and times are modelled as `Int`; the throttle
threshold `1000 / throttle` is computed in `ℚ` (JS floating division is exact
on the values involved).  Shape hit regions: `Shape.intersects` is an external
collaborator (not part of the provided source), modelled from the spec as a
point-in-rectangle predicate.  Events "emitted" are the `_handleEvents` calls,
recorded in order as an emission trace.
-/

/-- A 2-D point (mouse/touch coordinate). -/
structure Pos where
  x : Int
  y : Int
deriving Repr, DecidableEq

/-- The per-shape data that `Stage.js` reads: identity (`_id`), the
`isVisible()` flag, `attrs.listening`, whether `eventListeners` is non-null
(in the source every node carries an `eventListeners` object), and the
shape's hit region. -/
structure ShapeData where
  id : Nat
  visible : Bool
  listening : Bool
  hasEventListeners : Bool
  hitL : Int
  hitT : Int
  hitR : Int
  hitB : Int
deriving Repr, DecidableEq

/-- Modelled from the spec: `shape.intersects(pos)` lives in `Shape.js`,
which is not part of the provided source; per §4.1/§6 it is the external
point-in-shape predicate.  We model the rectangle case. -/
def ShapeData.intersects (s : ShapeData) (p : Pos) : Bool :=
  decide (s.hitL ≤ p.x) && decide (p.x ≤ s.hitR) &&
  decide (s.hitT ≤ p.y) && decide (p.y ≤ s.hitB)

mutual
/-- A node inside a layer: either a shape (`nodeType === 'Shape'`) or a
container (e.g. a group) with its own `attrs.listening` flag and its
children in insertion order. -/
inductive SceneNode where
  | shapeNode : ShapeData → SceneNode
  | containerNode : Bool → NodeList → SceneNode

/-- Children of a container, in insertion order (first-added first). -/
inductive NodeList where
  | nil : NodeList
  | cons : SceneNode → NodeList → NodeList
end

/-- `child.attrs.listening`, as read by `_traverseChildren`. -/
def SceneNode.listeningAttr : SceneNode → Bool
  | .shapeNode s => s.listening
  | .containerNode b _ => b

/-- A layer: `isVisible()`, `attrs.listening`, and children in insertion
order.  Layers themselves appear in the stage's `children` array in
insertion order. -/
structure LayerData where
  visible : Bool
  listening : Bool
  children : NodeList

/-- The kinds of synthetic events dispatched via `_handleEvents`. -/
inductive EventKind where
  | mousedown | mouseup | click | dblclick
  | touchstart | touchend | tap | dbltap
  | mouseover | mouseout | mousemove | touchmove
  | dragstart | dragmove | dragend
deriving Repr, DecidableEq

/-- One `_handleEvents(kind)` call on the shape with the given `_id`. -/
structure Emit where
  kind : EventKind
  id : Nat
deriving Repr, DecidableEq

/-- `node.attrs.dragConstraint`. -/
inductive DragConstraintKind where
  | noneC | horizontal | vertical
deriving Repr, DecidableEq

/-- `node.attrs.dragBounds`: independent optional clamps. -/
structure DragBoundsData where
  left : Option Int
  right : Option Int
  top : Option Int
  bottom : Option Int
deriving Repr, DecidableEq

/-- The dragged node as seen by the `_prepareDrag` move handler: identity,
current position attributes, and drag configuration. -/
structure DragNodeData where
  id : Nat
  x : Int
  y : Int
  dragConstraint : DragConstraintKind
  dragBounds : DragBoundsData
deriving Repr, DecidableEq

/-- Modelled from the spec: `node.setAbsolutePosition(pos)` lives in
`Node.js`, which is not part of the provided source; per §6
(`setPosition(node, {x,y})`) it sets the node's position attributes to the
given point. -/
def setAbsolutePosition (node : DragNodeData) (p : Pos) : DragNodeData :=
  { node with x := p.x, y := p.y }

/-- One step of the `_prepareDrag` `mousemove touchmove` handler's position
update: candidate position from pointer minus captured offset, the four
independent optional bounds clamps, `setAbsolutePosition`, then the
axis-constraint overrides restoring the locked coordinate from
`lastNodePos`. -/
def dragMoveUpdate (node : DragNodeData) (offset : Pos) (pos : Pos) : DragNodeData :=
  let lastX := node.x
  let lastY := node.y
  let nx0 : Int := pos.x - offset.x
  let ny0 : Int := pos.y - offset.y
  let nx1 := match node.dragBounds.left with
    | some l => if nx0 < l then l else nx0
    | none => nx0
  let nx2 := match node.dragBounds.right with
    | some r => if nx1 > r then r else nx1
    | none => nx1
  let ny1 := match node.dragBounds.top with
    | some t => if ny0 < t then t else ny0
    | none => ny0
  let ny2 := match node.dragBounds.bottom with
    | some b => if ny1 > b then b else ny1
    | none => ny1
  let node1 := setAbsolutePosition node ⟨nx2, ny2⟩
  match node.dragConstraint with
  | .horizontal => { node1 with y := lastY }
  | .vertical => { node1 with x := lastX }
  | .noneC => node1

/-- The global drag session (`Kinetic.GlobalObject.drag`): the dragged node
(if armed), the `moving` flag, and the pointer-to-node offset captured at
drag start. -/
structure DragState where
  node : Option DragNodeData
  moving : Bool
  offset : Pos
deriving Repr, DecidableEq

/-- The mutable per-stage interaction state, plus the per-shape
`inDoubleClickWindow` flags (`dblFlags`, the set of shape ids whose flag is
`true`) and the pending `setTimeout` clears (`timeouts`, pairs of fire time
and shape id) that in the source live on shape objects and in the JS timer
queue. -/
structure StageState where
  targetShape : Option ShapeData
  targetFound : Bool
  mouseoverShape : Option ShapeData
  mouseoutShape : Option ShapeData
  mousePos : Option Pos
  touchPos : Option Pos
  mouseDown : Bool
  mouseUp : Bool
  mouseMove : Bool
  clickStart : Bool
  touchStart : Bool
  touchEnd : Bool
  touchMove : Bool
  tapStart : Bool
  lastEventTime : Int
  dblFlags : List Nat
  timeouts : List (Int × Nat)
  drag : DragState
deriving Repr, DecidableEq

/-- Stage configuration attributes: `attrs.throttle` (default 80) and the
`dblClickWindow` constant (400 ms in the constructor). -/
structure StageConfig where
  throttle : Int
  dblClickWindow : Int
deriving Repr, DecidableEq

/-- The default configuration from the constructor. -/
def defaultConfig : StageConfig := ⟨80, 400⟩

/-- `_setStageDefaultProperties` plus `lastEventTime = 0` and an idle global
drag session. -/
def initialStageState : StageState where
  targetShape := none
  targetFound := false
  mouseoverShape := none
  mouseoutShape := none
  mousePos := none
  touchPos := none
  mouseDown := false
  mouseUp := false
  mouseMove := false
  clickStart := false
  touchStart := false
  touchEnd := false
  touchMove := false
  tapStart := false
  lastEventTime := 0
  dblFlags := []
  timeouts := []
  drag := ⟨none, false, ⟨0, 0⟩⟩

/-- `getUserPosition`: `this.getTouchPosition() || this.getMousePosition()`. -/
def getUserPosition (st : StageState) : Option Pos :=
  match st.touchPos with
  | some p => some p
  | none => st.mousePos

/-- The guard of `_detectEvent`'s main branch:
`shape.isVisible() && pos !== undefined && shape.intersects(pos)`. -/
def hitPrecondition (st : StageState) (shape : ShapeData) : Bool :=
  shape.visible &&
    (match getUserPosition st with
     | some p => shape.intersects p
     | none => false)

/-- `this.targetShape && shape._id === this.targetShape._id`. -/
def targetIdIs (st : StageState) (shape : ShapeData) : Bool :=
  match st.targetShape with
  | some t => t.id == shape.id
  | none => false

/-- `_setTarget(shape)`. -/
def setTargetSt (st : StageState) (shape : Option ShapeData) : StageState :=
  { st with targetShape := shape, targetFound := true }

/-- `_isNewTarget(shape)`: the returned `Bool` is the JS return value; the
returned state records the side effect (storing the old target as the
pending `mouseoutShape` when the old target has event listeners). -/
def isNewTarget (st : StageState) (shape : ShapeData) : Bool × StageState :=
  match st.targetShape with
  | none => (true, st)
  | some tgt =>
    if !st.targetFound && shape.id != tgt.id then
      (true, if tgt.hasEventListeners then { st with mouseoutShape := some tgt } else st)
    else
      (false, st)

/-- Result of `_detectEvent`: updated state, the JS return value, and the
`_handleEvents` calls it performed, in order. -/
structure DetectResult where
  st : StageState
  consumed : Bool
  emits : List Emit
deriving Repr, DecidableEq

/-- The branch chain of `_detectEvent(shape, evt)`, run on the state after
the `targetFound` mark, with `now` the raw event's arrival time (used for
the `setTimeout(.., dblClickWindow)` scheduling).  The source's separate
`if`-chains collapse to one chain because every branch returns. -/
def detectEventCore (cfg : StageConfig) (now : Int) (shape : ShapeData)
    (st : StageState) : DetectResult :=
  let isDragging := st.drag.moving
  if hitPrecondition st shape then
    -- handle onmousedown
    if !isDragging && st.mouseDown then
      ⟨{ st with mouseDown := false, clickStart := true }, true,
        [⟨.mousedown, shape.id⟩]⟩
    -- handle onmouseup & onclick
    else if st.mouseUp then
      let st1 := { st with mouseUp := false }
      if st1.clickStart then
        if !st1.drag.moving || st1.drag.node.isNone then
          let dbl := st1.dblFlags.contains shape.id
          ⟨{ st1 with
              dblFlags := if dbl then st1.dblFlags else shape.id :: st1.dblFlags,
              timeouts := st1.timeouts ++ [(now + cfg.dblClickWindow, shape.id)] },
            true,
            [⟨.mouseup, shape.id⟩, ⟨.click, shape.id⟩] ++
              (if dbl then [⟨.dblclick, shape.id⟩] else [])⟩
        else ⟨st1, true, [⟨.mouseup, shape.id⟩]⟩
      else ⟨st1, true, [⟨.mouseup, shape.id⟩]⟩
    -- handle touchstart
    else if !isDragging && st.touchStart then
      ⟨{ st with touchStart := false, tapStart := true }, true,
        [⟨.touchstart, shape.id⟩]⟩
    -- handle touchend & tap
    else if st.touchEnd then
      let st1 := { st with touchEnd := false }
      if st1.tapStart then
        if !st1.drag.moving || st1.drag.node.isNone then
          let dbl := st1.dblFlags.contains shape.id
          ⟨{ st1 with
              dblFlags := if dbl then st1.dblFlags else shape.id :: st1.dblFlags,
              timeouts := st1.timeouts ++ [(now + cfg.dblClickWindow, shape.id)] },
            true,
            [⟨.touchend, shape.id⟩, ⟨.tap, shape.id⟩] ++
              (if dbl then [⟨.dbltap, shape.id⟩] else [])⟩
        else ⟨st1, true, [⟨.touchend, shape.id⟩]⟩
      else ⟨st1, true, [⟨.touchend, shape.id⟩]⟩
    -- handle onmouseover (with deferred stored mouseout run first)
    else if !isDragging && (isNewTarget st shape).1 then
      let st1 := (isNewTarget st shape).2
      match st1.mouseoutShape with
      | some m =>
        -- note: the source fires the stored mouseout but does NOT clear
        -- `this.mouseoutShape` here; only `mouseoverShape` is set and reset
        ⟨setTargetSt { st1 with mouseoverShape := none } (some shape), true,
          [⟨.mouseout, m.id⟩, ⟨.mouseover, shape.id⟩]⟩
      | none =>
        ⟨setTargetSt st1 (some shape), true, [⟨.mouseover, shape.id⟩]⟩
    -- handle mousemove and touchmove
    else if !isDragging && st.mouseMove then
      ⟨st, true, [⟨.mousemove, shape.id⟩]⟩
    else if !isDragging && st.touchMove then
      ⟨st, true, [⟨.touchmove, shape.id⟩]⟩
    else
      ⟨st, false, []⟩
  -- handle mouseout condition: stored, not emitted, during this event
  else if !isDragging && targetIdIs st shape then
    ⟨{ st with targetShape := none, targetFound := true, mouseoutShape := some shape },
      true, []⟩
  else
    ⟨st, false, []⟩

/-- `_detectEvent(shape, evt)` entry: the source first marks `targetFound`
when the dispatched shape is the tracked target, then runs the branch
chain (`detectEventCore`).  `isDragging` is captured before that mark, but
the mark does not touch `drag`, so capturing it inside the core is
equivalent. -/
def detectEvent (cfg : StageConfig) (now : Int) (shape : ShapeData)
    (st0 : StageState) : DetectResult :=
  detectEventCore cfg now shape
    (if targetIdIs st0 shape then { st0 with targetFound := true } else st0)

/-- Result of a traversal: final state, whether a shape consumed the event,
the emission trace, and the shape ids on which `_detectEvent` was invoked,
in visit order. -/
structure TravResult where
  st : StageState
  consumed : Bool
  emits : List Emit
  visited : List Nat
deriving Repr, DecidableEq

mutual
/-- The body of `_traverseChildren`'s per-child dispatch: a shape child goes
through `_detectEvent`; a container child recurses. -/
def traverseNodeD (cfg : StageConfig) (now : Int) (st : StageState) :
    SceneNode → TravResult
  | .shapeNode s =>
    let d := detectEvent cfg now s st
    ⟨d.st, d.consumed, d.emits, [s.id]⟩
  | .containerNode _ cs => traverseListD cfg now st cs

/-- `_traverseChildren(obj, evt)`: children are walked backwards
(last-added first, i.e. the tail of the insertion-order list first), a child
with `attrs.listening` false is skipped together with its subtree, and the
first consumed dispatch short-circuits the walk. -/
def traverseListD (cfg : StageConfig) (now : Int) (st : StageState) :
    NodeList → TravResult
  | .nil => ⟨st, false, [], []⟩
  | .cons c tl =>
    let r := traverseListD cfg now st tl
    if r.consumed then r
    else if c.listeningAttr then
      let r2 := traverseNodeD cfg now r.st c
      ⟨r2.st, r2.consumed, r.emits ++ r2.emits, r.visited ++ r2.visited⟩
    else r
end

/-- The layer loop of `_handleStageEvent`: layers are walked backwards
(topmost = last-added first); an invisible or non-listening layer is
skipped; the first layer whose traversal consumes the event stops the whole
walk (`n = -1`). -/
def handleLayers (cfg : StageConfig) (now : Int) (st : StageState) :
    List LayerData → TravResult
  | [] => ⟨st, false, [], []⟩
  | l :: rest =>
    let r := handleLayers cfg now st rest
    if r.consumed then r
    else if l.visible && l.listening then
      let r2 := traverseListD cfg now r.st l.children
      ⟨r2.st, r2.consumed, r.emits ++ r2.emits, r.visited ++ r2.visited⟩
    else r

mutual
/-- Spec-side visit order for one node: itself for a shape, its flattened
children (reverse insertion order, non-listening children pruned) for a
container. -/
def specNodeOrder : SceneNode → List ShapeData
  | .shapeNode s => [s]
  | .containerNode _ cs => specListOrder cs

/-- Spec-side visit order for a child list: reverse insertion order with
subtrees rooted at a non-listening node skipped. -/
def specListOrder : NodeList → List ShapeData
  | .nil => []
  | .cons c tl =>
    specListOrder tl ++ (if c.listeningAttr then specNodeOrder c else [])
end

/-- Spec-side visit order for the whole stage: layers in reverse insertion
order, invisible or non-listening layers skipped. -/
def sceneSpecOrder : List LayerData → List ShapeData
  | [] => []
  | l :: rest =>
    sceneSpecOrder rest ++
      (if l.visible && l.listening then specListOrder l.children else [])

/-- Spec-side first-hit-wins scan: run `_detectEvent` on the shapes of a
flat list, stopping at (and including) the first shape that consumes. -/
def firstHitScan (cfg : StageConfig) (now : Int) (st : StageState) :
    List ShapeData → TravResult
  | [] => ⟨st, false, [], []⟩
  | s :: rest =>
    let d := detectEvent cfg now s st
    if d.consumed then ⟨d.st, true, d.emits, [s.id]⟩
    else
      let r := firstHitScan cfg now d.st rest
      ⟨r.st, r.consumed, d.emits ++ r.emits, s.id :: r.visited⟩

/-- The payload of a raw DOM event: the coordinate that `_setMousePosition`
computes from it, and `evt.touches` (if present). -/
structure RawPayload where
  mp : Pos
  touches : Option (List Pos)
deriving Repr, DecidableEq

/-- `_setTouchPosition(evt)`: updates `touchPos` only when `evt.touches`
is defined and holds exactly one contact; never resets it. -/
def setTouchPositionSt (st : StageState) (touches : Option (List Pos)) :
    StageState :=
  match touches with
  | some [p] => { st with touchPos := some p }
  | _ => st

/-- The state preamble of `_handleStageEvent`: record the event time, set
the mouse and touch positions, and reset `targetFound`. -/
def prepareStageEventState (pay : RawPayload) (t : Int) (st : StageState) :
    StageState :=
  let st1 := { st with lastEventTime := t, mousePos := some pay.mp }
  let st2 := setTouchPositionSt st1 pay.touches
  { st2 with targetFound := false }

/-- `_handleStageEvent(evt)`: preamble, the layer walk, and — only when no
shape consumed the event — the deferred `mouseout` flush of a stored
`mouseoutShape`. -/
def handleStageEvent (cfg : StageConfig) (layers : List LayerData)
    (pay : RawPayload) (t : Int) (st : StageState) : StageState × List Emit :=
  let r := handleLayers cfg t (prepareStageEventState pay t st) layers
  if r.consumed then
    (r.st, r.emits)
  else
    match r.st.mouseoutShape with
    | some m => ({ r.st with mouseoutShape := none }, r.emits ++ [⟨.mouseout, m.id⟩])
    | none => (r.st, r.emits)

/-- The `mousemove` handler registered in `_listen`: throttled by
`1000 / attrs.throttle` ms (written `Rat.divInt 1000 throttle`, the same
rational) measured against `lastEventTime`; when the event passes, the
mouse flags are set and `_handleStageEvent` runs; otherwise the event is
dropped entirely. -/
def listenMouseMove (cfg : StageConfig) (layers : List LayerData)
    (pay : RawPayload) (t : Int) (st : StageState) : StageState × List Emit :=
  let timeDiff : Int := t - st.lastEventTime
  if ((timeDiff : ℚ) ≥ Rat.divInt 1000 cfg.throttle) then
    handleStageEvent cfg layers pay t
      { st with mouseDown := false, mouseUp := false, mouseMove := true }
  else (st, [])

/-- The `touchmove` handler registered in `_listen` (same throttle). -/
def listenTouchMove (cfg : StageConfig) (layers : List LayerData)
    (pay : RawPayload) (t : Int) (st : StageState) : StageState × List Emit :=
  let timeDiff : Int := t - st.lastEventTime
  if ((timeDiff : ℚ) ≥ Rat.divInt 1000 cfg.throttle) then
    handleStageEvent cfg layers pay t
      { st with touchStart := false, touchEnd := false, touchMove := true }
  else (st, [])

/-- The `mousemove touchmove` handler registered in `_prepareDrag`: when a
drag session is armed, update the node position (`dragMoveUpdate`), redraw
(not modelled), set `moving` and emit `dragstart` on the first move, then
emit `dragmove`.  When `getUserPosition()` is undefined the source would
fault reading `pos.x`; the claims only concern defined positions, so that
case is modelled as a no-op. -/
def dragContentMove (st : StageState) : StageState × List Emit :=
  match st.drag.node with
  | none => (st, [])
  | some node =>
    match getUserPosition st with
    | none => (st, [])
    | some pos =>
      let node1 := dragMoveUpdate node st.drag.offset pos
      let startEmits := if !st.drag.moving then [⟨.dragstart, node.id⟩] else []
      ({ st with drag := ⟨some node1, true, st.drag.offset⟩ },
        startEmits ++ [⟨.dragmove, node1.id⟩])

/-- `_endDrag(evt)`: emit `dragend` only if the session reached `moving`,
then clear the session's node unconditionally. -/
def endDragSt (st : StageState) : StageState × List Emit :=
  match st.drag.node with
  | some node =>
    if st.drag.moving then
      ({ st with drag := ⟨none, false, st.drag.offset⟩ }, [⟨.dragend, node.id⟩])
    else
      ({ st with drag := ⟨none, st.drag.moving, st.drag.offset⟩ }, [])
  | none => ({ st with drag := ⟨none, st.drag.moving, st.drag.offset⟩ }, [])

/-- Fire the pending `setTimeout` clears that are due at time `t`: each one
sets its shape's `inDoubleClickWindow` back to `false`.  A timeout due at
exactly the arrival time of a raw event is modelled as firing first. -/
def fireDueTimeouts (t : Int) (st : StageState) : StageState :=
  let due := st.timeouts.filter (fun p => decide (p.1 ≤ t))
  { st with
    timeouts := st.timeouts.filter (fun p => !decide (p.1 ≤ t)),
    dblFlags := st.dblFlags.filter (fun i => !due.any (fun p => p.2 == i)) }

/-- The raw DOM event kinds the stage listens to. -/
inductive RawKind where
  | mousedownR | mousemoveR | mouseupR | mouseoverR | mouseoutR
  | touchstartR | touchmoveR | touchendR
deriving Repr, DecidableEq

/-- A raw DOM event: kind, payload, arrival time. -/
structure RawEvent where
  kind : RawKind
  payload : RawPayload
  time : Int
deriving Repr, DecidableEq

/-- Process one raw DOM event: fire due double-click-window timeouts, then
run the content listeners registered by `_listen` and `_prepareDrag`, in
registration order.  Stage-level dragging (`attrs.draggable` on the stage
itself) is outside the modelled scenes. -/
def processRaw (cfg : StageConfig) (layers : List LayerData)
    (st0 : StageState) (e : RawEvent) : StageState × List Emit :=
  let st := fireDueTimeouts e.time st0
  match e.kind with
  | .mousedownR =>
    handleStageEvent cfg layers e.payload e.time
      { st with mouseDown := true, mouseUp := false, mouseMove := false }
  | .mousemoveR =>
    let r1 := listenMouseMove cfg layers e.payload e.time st
    let r2 := dragContentMove r1.1
    (r2.1, r1.2 ++ r2.2)
  | .mouseupR =>
    let r1 := handleStageEvent cfg layers e.payload e.time
      { st with mouseDown := false, mouseUp := true, mouseMove := false }
    let r2 := endDragSt { r1.1 with clickStart := false }
    (r2.1, r1.2 ++ r2.2)
  | .mouseoverR =>
    handleStageEvent cfg layers e.payload e.time st
  | .mouseoutR =>
    let r1 := match st.targetShape with
      | some tgt =>
        ({ st with targetShape := none, mousePos := none }, [(⟨.mouseout, tgt.id⟩ : Emit)])
      | none => ({ st with mousePos := none }, [])
    let r2 := endDragSt r1.1
    (r2.1, r1.2 ++ r2.2)
  | .touchstartR =>
    handleStageEvent cfg layers e.payload e.time
      { st with touchStart := true, touchEnd := false, touchMove := false }
  | .touchmoveR =>
    let r1 := listenTouchMove cfg layers e.payload e.time st
    let r2 := dragContentMove r1.1
    (r2.1, r1.2 ++ r2.2)
  | .touchendR =>
    let r1 := handleStageEvent cfg layers e.payload e.time
      { st with touchStart := false, touchEnd := true, touchMove := false }
    let r2 := endDragSt { r1.1 with tapStart := false }
    (r2.1, r1.2 ++ r2.2)

/-- Process a finite sequence of raw DOM events, accumulating the emission
trace. -/
def runEvents (cfg : StageConfig) (layers : List LayerData)
    (st : StageState) : List RawEvent → StageState × List Emit
  | [] => (st, [])
  | e :: rest =>
    let r1 := processRaw cfg layers st e
    let r2 := runEvents cfg layers r1.1 rest
    (r2.1, r1.2 ++ r2.2)

/-- Running enter (`mouseover`) minus exit (`mouseout`) count of a trace. -/
def enterExitDiff (l : List Emit) : Int :=
  (l.countP (fun e => e.kind == .mouseover) : Int) -
  (l.countP (fun e => e.kind == .mouseout) : Int)

/-- Whether every prefix of a trace keeps the enter-exit difference at 0 or
1 (the balance asserted by the spec). -/
def enterExitBalanced (l : List Emit) : Bool :=
  (List.range (l.length + 1)).all
    (fun n => enterExitDiff (l.take n) == 0 || enterExitDiff (l.take n) == 1)


/-- Example shape: id 1, visible, listening, hit region `[0,10] × [0,10]`. -/
def exShapeA : ShapeData := ⟨1, true, true, true, 0, 0, 10, 10⟩

/-- Example shape: id 2, visible, listening, hit region `[100,110] × [0,10]`. -/
def exShapeB : ShapeData := ⟨2, true, true, true, 100, 0, 110, 10⟩

/-- A hidden copy of shape 1 (same id and region, `isVisible()` false). -/
def exShapeAHidden : ShapeData := ⟨1, false, true, true, 0, 0, 10, 10⟩

/-- One visible, listening layer holding shapes 1 and 2 (2 added last, so 2
is visited first). -/
def exSceneAB : List LayerData :=
  [⟨true, true, .cons (.shapeNode exShapeA) (.cons (.shapeNode exShapeB) .nil)⟩]

/-- One visible, listening layer holding only shape 1. -/
def exSceneA : List LayerData :=
  [⟨true, true, .cons (.shapeNode exShapeA) .nil⟩]

/-- A point inside shape 1. -/
def exPosA : Pos := ⟨5, 5⟩

/-- A point inside shape 2. -/
def exPosB : Pos := ⟨105, 5⟩

/-- A point outside both example shapes. -/
def exPosOut : Pos := ⟨500, 500⟩

/-- An armed drag session node: id 7, position (5, 9), horizontal
constraint, no bounds. -/
def exDragNodeH : DragNodeData := ⟨7, 5, 9, .horizontal, ⟨none, none, none, none⟩⟩

/-- A drag node with bounds `{left: 10, right: 100}` and no constraint. -/
def exDragNodeB : DragNodeData := ⟨8, 0, 0, .noneC, ⟨some 10, some 100, none, none⟩⟩

/-! ## Helper lemmas: `_isNewTarget` side effects and `_detectEvent` frame -/

/-- `_isNewTarget` can only touch `mouseoutShape`: every other field of the
state it returns is unchanged. -/
lemma isNewTarget_snd_fields (st : StageState) (s : ShapeData) :
    (isNewTarget st s).2.touchPos = st.touchPos ∧
    (isNewTarget st s).2.mousePos = st.mousePos ∧
    (isNewTarget st s).2.lastEventTime = st.lastEventTime ∧
    (isNewTarget st s).2.drag = st.drag ∧
    (isNewTarget st s).2.dblFlags = st.dblFlags ∧
    (isNewTarget st s).2.timeouts = st.timeouts ∧
    (isNewTarget st s).2.targetShape = st.targetShape := by
  unfold isNewTarget
  repeat' split
  all_goals simp

set_option maxHeartbeats 1600000 in
/-- `_detectEvent`'s branch chain never writes the channel positions, the
event timestamp, or the global drag session. -/
lemma detectEventCore_frame (cfg : StageConfig) (now : Int) (s : ShapeData)
    (st : StageState) :
    (detectEventCore cfg now s st).st.touchPos = st.touchPos ∧
    (detectEventCore cfg now s st).st.mousePos = st.mousePos ∧
    (detectEventCore cfg now s st).st.lastEventTime = st.lastEventTime ∧
    (detectEventCore cfg now s st).st.drag = st.drag := by
  obtain ⟨h1, h2, h3, h4, h5, h6, h7⟩ := isNewTarget_snd_fields st s
  refine ⟨?_, ?_, ?_, ?_⟩ <;>
    (unfold detectEventCore; repeat' split; all_goals (try rfl); all_goals (try simp_all [setTargetSt]))

/-- `_detectEvent` never writes the channel positions, the event timestamp,
or the global drag session. -/
lemma detectEvent_frame (cfg : StageConfig) (now : Int) (s : ShapeData)
    (st0 : StageState) :
    (detectEvent cfg now s st0).st.touchPos = st0.touchPos ∧
    (detectEvent cfg now s st0).st.mousePos = st0.mousePos ∧
    (detectEvent cfg now s st0).st.lastEventTime = st0.lastEventTime ∧
    (detectEvent cfg now s st0).st.drag = st0.drag := by
  unfold detectEvent
  rcases detectEventCore_frame cfg now s
      (if targetIdIs st0 s then { st0 with targetFound := true } else st0) with
    ⟨h1, h2, h3, h4⟩
  split at h1 <;> split at h2 <;> split at h3 <;> split at h4 <;> simp_all

/-! ## Helper lemmas: traversal refines the spec-side first-hit scan -/

/-- Scanning a concatenation: stop inside the first block if it consumed,
otherwise continue into the second from the first block's final state. -/
lemma firstHitScan_append (cfg : StageConfig) (now : Int) (xs ys : List ShapeData)
    (st : StageState) :
    firstHitScan cfg now st (xs ++ ys) =
      (if (firstHitScan cfg now st xs).consumed then firstHitScan cfg now st xs
       else
         ⟨(firstHitScan cfg now (firstHitScan cfg now st xs).st ys).st,
          (firstHitScan cfg now (firstHitScan cfg now st xs).st ys).consumed,
          (firstHitScan cfg now st xs).emits ++
            (firstHitScan cfg now (firstHitScan cfg now st xs).st ys).emits,
          (firstHitScan cfg now st xs).visited ++
            (firstHitScan cfg now (firstHitScan cfg now st xs).st ys).visited⟩) := by
  induction xs generalizing st with
  | nil => simp [firstHitScan]
  | cons s xs ih =>
    cases h : (detectEvent cfg now s st).consumed
    · cases h2 : (firstHitScan cfg now (detectEvent cfg now s st).st xs).consumed <;>
        simp [firstHitScan, h, ih, h2, List.append_assoc]
    · simp [firstHitScan, h, ih]

mutual
/-- The recursive walk of one node behaves exactly like the spec-side
first-hit scan of its flattened visit order. -/
theorem traverseNodeD_eq_scan :
    ∀ (c : SceneNode) (cfg : StageConfig) (now : Int) (st : StageState),
      traverseNodeD cfg now st c = firstHitScan cfg now st (specNodeOrder c)
  | .shapeNode s, cfg, now, st => by
      cases h : (detectEvent cfg now s st).consumed <;>
        simp [traverseNodeD, firstHitScan, specNodeOrder, h]
  | .containerNode b cs, cfg, now, st => by
      simpa [traverseNodeD, specNodeOrder] using traverseListD_eq_scan cs cfg now st

/-- `_traverseChildren` behaves exactly like the spec-side first-hit scan
of the reverse-insertion-order, listening-pruned flattening. -/
theorem traverseListD_eq_scan :
    ∀ (l : NodeList) (cfg : StageConfig) (now : Int) (st : StageState),
      traverseListD cfg now st l = firstHitScan cfg now st (specListOrder l)
  | .nil, cfg, now, st => by simp [traverseListD, specListOrder, firstHitScan]
  | .cons c tl, cfg, now, st => by
      have htl := traverseListD_eq_scan tl cfg now st
      simp only [traverseListD, specListOrder, firstHitScan_append, htl]
      cases hcons : (firstHitScan cfg now st (specListOrder tl)).consumed
      · cases hl : c.listeningAttr
        · simp only [hcons, hl, Bool.false_eq_true, if_false, firstHitScan,
            List.append_nil]
          rw [← hcons]
        · simp [hcons, hl, traverseNodeD_eq_scan c]
      · simp [hcons]
end

/-- The layer walk of `_handleStageEvent` behaves exactly like the
spec-side first-hit scan of the whole scene's flattened visit order. -/
lemma handleLayers_eq_scan (cfg : StageConfig) (now : Int)
    (layers : List LayerData) (st : StageState) :
    handleLayers cfg now st layers = firstHitScan cfg now st (sceneSpecOrder layers) := by
  induction layers generalizing st with
  | nil => simp [handleLayers, sceneSpecOrder, firstHitScan]
  | cons l rest ih =>
    simp only [handleLayers, sceneSpecOrder, firstHitScan_append, ih]
    cases hcons : (firstHitScan cfg now st (sceneSpecOrder rest)).consumed
    · cases hl : (l.visible && l.listening)
      · simp only [hcons, hl, Bool.false_eq_true, if_false, firstHitScan,
          List.append_nil]
        rw [← hcons]
      · simp [hcons, hl, traverseListD_eq_scan]
    · simp [hcons]

/-! ## Helper lemmas: frame facts through the scan and the stage pipeline -/

/-- The first-hit scan never writes the channel positions, the event
timestamp, or the global drag session (it only runs `_detectEvent`s). -/
lemma firstHitScan_frame (cfg : StageConfig) (now : Int) (ss : List ShapeData)
    (st : StageState) :
    (firstHitScan cfg now st ss).st.touchPos = st.touchPos ∧
    (firstHitScan cfg now st ss).st.mousePos = st.mousePos ∧
    (firstHitScan cfg now st ss).st.lastEventTime = st.lastEventTime ∧
    (firstHitScan cfg now st ss).st.drag = st.drag := by
  induction ss generalizing st with
  | nil => simp [firstHitScan]
  | cons s rest ih =>
    obtain ⟨d1, d2, d3, d4⟩ := detectEvent_frame cfg now s st
    obtain ⟨i1, i2, i3, i4⟩ := ih (detectEvent cfg now s st).st
    cases h : (detectEvent cfg now s st).consumed <;>
      simp_all [firstHitScan, h]

/-- `setTouchPositionSt` only writes `touchPos`, and never to `none`. -/
lemma setTouchPositionSt_fields (st : StageState) (ts : Option (List Pos)) :
    (setTouchPositionSt st ts).touchPos
        = (match ts with | some [p] => some p | _ => st.touchPos) ∧
    (setTouchPositionSt st ts).mousePos = st.mousePos ∧
    (setTouchPositionSt st ts).lastEventTime = st.lastEventTime ∧
    (setTouchPositionSt st ts).drag = st.drag ∧
    (st.touchPos.isSome = true → (setTouchPositionSt st ts).touchPos.isSome = true) := by
  unfold setTouchPositionSt
  repeat' split
  all_goals simp_all

/-- The `_handleStageEvent` preamble: timestamp set to the event time,
drag untouched, touch position someness preserved. -/
lemma prepareStageEventState_fields (pay : RawPayload) (t : Int) (st : StageState) :
    (prepareStageEventState pay t st).lastEventTime = t ∧
    (prepareStageEventState pay t st).drag = st.drag ∧
    (st.touchPos.isSome = true →
      (prepareStageEventState pay t st).touchPos.isSome = true) := by
  obtain ⟨s1, s2, s3, s4, s5⟩ :=
    setTouchPositionSt_fields { st with lastEventTime := t, mousePos := some pay.mp } pay.touches
  unfold prepareStageEventState
  refine ⟨by simp_all, by simp_all, fun h => by simp_all⟩

/-- `_handleStageEvent` writes the timestamp, keeps the drag session, and
preserves touch-position someness. -/
lemma handleStageEvent_fields (cfg : StageConfig) (layers : List LayerData)
    (pay : RawPayload) (t : Int) (st : StageState) :
    (handleStageEvent cfg layers pay t st).1.lastEventTime = t ∧
    (handleStageEvent cfg layers pay t st).1.drag = st.drag ∧
    (st.touchPos.isSome = true →
      (handleStageEvent cfg layers pay t st).1.touchPos.isSome = true) := by
  obtain ⟨p1, p2, p3⟩ := prepareStageEventState_fields pay t st
  obtain ⟨f1, f2, f3, f4⟩ := firstHitScan_frame cfg t (sceneSpecOrder layers)
    (prepareStageEventState pay t st)
  unfold handleStageEvent
  rw [handleLayers_eq_scan]
  cases h :
      (firstHitScan cfg t (prepareStageEventState pay t st) (sceneSpecOrder layers)).consumed
  · cases hm :
        (firstHitScan cfg t (prepareStageEventState pay t st) (sceneSpecOrder layers)).st.mouseoutShape <;>
      simp_all
  · simp_all

/-- `fireDueTimeouts` only writes `timeouts` and `dblFlags`. -/
lemma fireDueTimeouts_fields (t : Int) (st : StageState) :
    (fireDueTimeouts t st).touchPos = st.touchPos ∧
    (fireDueTimeouts t st).mousePos = st.mousePos ∧
    (fireDueTimeouts t st).lastEventTime = st.lastEventTime ∧
    (fireDueTimeouts t st).drag = st.drag ∧
    (fireDueTimeouts t st).targetShape = st.targetShape ∧
    (fireDueTimeouts t st).mouseDown = st.mouseDown ∧
    (fireDueTimeouts t st).mouseUp = st.mouseUp ∧
    (fireDueTimeouts t st).clickStart = st.clickStart := by
  unfold fireDueTimeouts
  simp

/-- The `_prepareDrag` move handler only writes the drag session. -/
lemma dragContentMove_fields (st : StageState) :
    (dragContentMove st).1.touchPos = st.touchPos ∧
    (dragContentMove st).1.mousePos = st.mousePos ∧
    (dragContentMove st).1.lastEventTime = st.lastEventTime := by
  unfold dragContentMove
  repeat' split
  all_goals simp

/-- `_endDrag` only writes the drag session. -/
lemma endDragSt_fields (st : StageState) :
    (endDragSt st).1.touchPos = st.touchPos ∧
    (endDragSt st).1.mousePos = st.mousePos ∧
    (endDragSt st).1.lastEventTime = st.lastEventTime := by
  unfold endDragSt
  repeat' split
  all_goals simp

/-- The throttled `_listen` move handlers keep the drag session. -/
lemma listenMouseMove_drag (cfg : StageConfig) (layers : List LayerData)
    (pay : RawPayload) (t : Int) (st : StageState) :
    (listenMouseMove cfg layers pay t st).1.drag = st.drag ∧
    (listenTouchMove cfg layers pay t st).1.drag = st.drag := by
  unfold listenMouseMove listenTouchMove
  dsimp only
  constructor <;> split
  · exact (handleStageEvent_fields cfg layers pay t _).2.1
  · rfl
  · exact (handleStageEvent_fields cfg layers pay t _).2.1
  · rfl

/-- The throttled `_listen` move handlers preserve touch-position someness. -/
lemma listenMouseMove_touchPos (cfg : StageConfig) (layers : List LayerData)
    (pay : RawPayload) (t : Int) (st : StageState) (h : st.touchPos.isSome = true) :
    (listenMouseMove cfg layers pay t st).1.touchPos.isSome = true ∧
    (listenTouchMove cfg layers pay t st).1.touchPos.isSome = true := by
  unfold listenMouseMove listenTouchMove
  dsimp only
  constructor <;> split
  · exact (handleStageEvent_fields cfg layers pay t _).2.2 h
  · exact h
  · exact (handleStageEvent_fields cfg layers pay t _).2.2 h
  · exact h

/-! ## Helper lemmas: drag position update and per-event invariants -/

/-- With constraint `horizontal` the y attribute is restored from
`lastNodePos`; with `vertical` the x attribute is; identity and drag
configuration are never changed by a move update. -/
lemma dragMoveUpdate_constraint (node : DragNodeData) (offset pos : Pos) :
    (dragMoveUpdate node offset pos).id = node.id ∧
    (dragMoveUpdate node offset pos).dragConstraint = node.dragConstraint ∧
    (dragMoveUpdate node offset pos).dragBounds = node.dragBounds ∧
    (node.dragConstraint = .horizontal → (dragMoveUpdate node offset pos).y = node.y) ∧
    (node.dragConstraint = .vertical → (dragMoveUpdate node offset pos).x = node.x) := by
  unfold dragMoveUpdate setAbsolutePosition
  repeat' split
  all_goals simp_all

/-- `_prepareDrag`'s move handler keeps the recorded touch position. -/
lemma dragContentMove_touchPos (st : StageState) :
    (dragContentMove st).1.touchPos = st.touchPos :=
  (dragContentMove_fields st).1

/-- `_endDrag` keeps the recorded touch position. -/
lemma endDragSt_touchPos (st : StageState) :
    (endDragSt st).1.touchPos = st.touchPos :=
  (endDragSt_fields st).1

/-- Invariant preserved by the `_prepareDrag` move handler: the armed node
keeps its locked coordinate under an axis constraint. -/
lemma dragContentMove_locked (st : StageState) (n : DragNodeData)
    (h : st.drag.node = some n) :
    ∃ n2, (dragContentMove st).1.drag.node = some n2 ∧
      n2.dragConstraint = n.dragConstraint ∧
      (n.dragConstraint = .horizontal → n2.y = n.y) ∧
      (n.dragConstraint = .vertical → n2.x = n.x) := by
  unfold dragContentMove
  rw [h]
  cases hp : getUserPosition st with
  | none => exact ⟨n, h, rfl, fun _ => rfl, fun _ => rfl⟩
  | some p =>
    obtain ⟨m1, m2, m3, m4, m5⟩ := dragMoveUpdate_constraint n st.drag.offset p
    exact ⟨dragMoveUpdate n st.drag.offset p, by simp, m2, m4, m5⟩

/-- Processing one raw move-class event (`mousemove` or `touchmove`)
preserves an armed drag node's locked coordinate. -/
lemma processRaw_move_locked (cfg : StageConfig) (layers : List LayerData)
    (st : StageState) (e : RawEvent) (n : DragNodeData)
    (hk : e.kind = .mousemoveR ∨ e.kind = .touchmoveR)
    (h : st.drag.node = some n) :
    ∃ n2, (processRaw cfg layers st e).1.drag.node = some n2 ∧
      n2.dragConstraint = n.dragConstraint ∧
      (n.dragConstraint = .horizontal → n2.y = n.y) ∧
      (n.dragConstraint = .vertical → n2.x = n.x) := by
  have hfd : (fireDueTimeouts e.time st).drag = st.drag :=
    (fireDueTimeouts_fields e.time st).2.2.2.1
  rcases hk with hk | hk <;> (rw [processRaw]; rw [hk]; dsimp only)
  · have hl : (listenMouseMove cfg layers e.payload e.time (fireDueTimeouts e.time st)).1.drag
        = st.drag := by
      rw [(listenMouseMove_drag cfg layers e.payload e.time (fireDueTimeouts e.time st)).1, hfd]
    exact dragContentMove_locked
      (listenMouseMove cfg layers e.payload e.time (fireDueTimeouts e.time st)).1 n
      (by rw [hl, h])
  · have hl : (listenTouchMove cfg layers e.payload e.time (fireDueTimeouts e.time st)).1.drag
        = st.drag := by
      rw [(listenMouseMove_drag cfg layers e.payload e.time (fireDueTimeouts e.time st)).2, hfd]
    exact dragContentMove_locked
      (listenTouchMove cfg layers e.payload e.time (fireDueTimeouts e.time st)).1 n
      (by rw [hl, h])

/-- Running any finite sequence of raw move-class events preserves the
locked coordinate of the armed drag node. -/
lemma runEvents_move_locked (cfg : StageConfig) (layers : List LayerData)
    (evs : List RawEvent) :
    ∀ (st : StageState) (n : DragNodeData),
      (∀ e ∈ evs, e.kind = .mousemoveR ∨ e.kind = .touchmoveR) →
      st.drag.node = some n →
      ∃ n2, (runEvents cfg layers st evs).1.drag.node = some n2 ∧
        n2.dragConstraint = n.dragConstraint ∧
        (n.dragConstraint = .horizontal → n2.y = n.y) ∧
        (n.dragConstraint = .vertical → n2.x = n.x) := by
  induction evs with
  | nil => exact fun st n _ h => ⟨n, by simpa [runEvents] using h, rfl, fun _ => rfl, fun _ => rfl⟩
  | cons e rest ih =>
    intro st n hk h
    obtain ⟨n2, h2, hc2, hy2, hx2⟩ :=
      processRaw_move_locked cfg layers st e n (hk e (by simp)) h
    obtain ⟨n3, h3, hc3, hy3, hx3⟩ :=
      ih (processRaw cfg layers st e).1 n2 (fun e2 he2 => hk e2 (by simp [he2])) h2
    refine ⟨n3, by simpa [runEvents] using h3, by rw [hc3, hc2], ?_, ?_⟩
    · intro hh
      rw [hy3 (by rw [hc2, hh]), hy2 hh]
    · intro hh
      rw [hx3 (by rw [hc2, hh]), hx2 hh]

/-- Processing any raw event preserves the fact that a touch position has
been recorded. -/
lemma processRaw_touchPos (cfg : StageConfig) (layers : List LayerData)
    (st : StageState) (e : RawEvent) (h : st.touchPos.isSome = true) :
    (processRaw cfg layers st e).1.touchPos.isSome = true := by
  have hft : (fireDueTimeouts e.time st).touchPos = st.touchPos :=
    (fireDueTimeouts_fields e.time st).1
  have hfs : (fireDueTimeouts e.time st).touchPos.isSome = true := by rw [hft]; exact h
  cases hk : e.kind <;> rw [processRaw] <;> rw [hk] <;> dsimp only
  case mousedownR =>
    exact (handleStageEvent_fields cfg layers e.payload e.time _).2.2 hfs
  case mousemoveR =>
    have h1 := (listenMouseMove_touchPos cfg layers e.payload e.time
      (fireDueTimeouts e.time st) hfs).1
    rw [dragContentMove_touchPos]
    exact h1
  case mouseupR =>
    have h1 := (handleStageEvent_fields cfg layers e.payload e.time
      { fireDueTimeouts e.time st with
          mouseDown := false, mouseUp := true, mouseMove := false }).2.2
      (by simpa using hfs)
    rw [endDragSt_touchPos]
    simpa using h1
  case mouseoverR =>
    exact (handleStageEvent_fields cfg layers e.payload e.time _).2.2 hfs
  case mouseoutR =>
    rw [endDragSt_touchPos]
    cases hts : (fireDueTimeouts e.time st).targetShape <;> simp_all
  case touchstartR =>
    exact (handleStageEvent_fields cfg layers e.payload e.time _).2.2 hfs
  case touchmoveR =>
    have h1 := (listenMouseMove_touchPos cfg layers e.payload e.time
      (fireDueTimeouts e.time st) hfs).2
    rw [dragContentMove_touchPos]
    exact h1
  case touchendR =>
    have h1 := (handleStageEvent_fields cfg layers e.payload e.time
      { fireDueTimeouts e.time st with
          touchStart := false, touchEnd := true, touchMove := false }).2.2
      (by simpa using hfs)
    rw [endDragSt_touchPos]
    simpa using h1

/-- Running any raw-event sequence preserves the fact that a touch
position has been recorded. -/
lemma runEvents_touchPos (cfg : StageConfig) (layers : List LayerData)
    (evs : List RawEvent) :
    ∀ st : StageState, st.touchPos.isSome = true →
      (runEvents cfg layers st evs).1.touchPos.isSome = true := by
  induction evs with
  | nil => intro st h; simpa [runEvents] using h
  | cons e rest ih =>
    intro st h
    have h1 := processRaw_touchPos cfg layers st e h
    simpa [runEvents] using ih (processRaw cfg layers st e).1 h1

/-! ## Helper lemmas: branch characterisations of `_detectEvent` -/

/-- The `targetFound` mark does not change what the hit guard sees. -/
lemma hitPrecondition_targetFound (st : StageState) (s : ShapeData) (b : Bool) :
    hitPrecondition { st with targetFound := b } s = hitPrecondition st s := rfl

/-- The `targetFound` mark does not change the tracked-target id test. -/
lemma targetIdIs_targetFound (st : StageState) (s : ShapeData) (b : Bool) :
    targetIdIs { st with targetFound := b } s = targetIdIs st s := rfl

/-- The `mouseup`/`click` branch of `_detectEvent`, fully characterised:
fires `mouseup` then `click` (the `clickStart` flag is stage-global — no
same-node check), fires `dblclick` exactly when this shape's window flag is
set, then sets the flag and appends a fresh timeout without cancelling the
pending ones. -/
lemma detectEventCore_release_mouse (cfg : StageConfig) (now : Int)
    (s : ShapeData) (st : StageState)
    (hhit : hitPrecondition st s = true)
    (hdown : st.mouseDown = false)
    (hup : st.mouseUp = true)
    (hclick : st.clickStart = true)
    (hmoving : st.drag.moving = false) :
    detectEventCore cfg now s st =
      ⟨{ st with
          mouseUp := false
          dblFlags := if st.dblFlags.contains s.id then st.dblFlags else s.id :: st.dblFlags
          timeouts := st.timeouts ++ [(now + cfg.dblClickWindow, s.id)] },
        true,
        [⟨.mouseup, s.id⟩, ⟨.click, s.id⟩] ++
          (if st.dblFlags.contains s.id then [⟨.dblclick, s.id⟩] else [])⟩ := by
  unfold detectEventCore
  simp [hhit, hdown, hup, hclick, hmoving]

/-- The `mouseout`-condition branch of `_detectEvent`: when the dispatched
shape is the tracked target, the hit guard fails, and no drag is moving,
the target is cleared, the shape is stored as the pending `mouseoutShape`,
the call consumes the event, and nothing is emitted. -/
lemma detectEvent_mouseout_branch (cfg : StageConfig) (now : Int)
    (s : ShapeData) (st : StageState)
    (htgt : targetIdIs st s = true)
    (hmiss : hitPrecondition st s = false)
    (hdrag : st.drag.moving = false) :
    detectEvent cfg now s st =
      ⟨{ st with targetFound := true, targetShape := none, mouseoutShape := some s },
        true, []⟩ := by
  unfold detectEvent detectEventCore
  rw [htgt]
  simp only [if_true]
  rw [hitPrecondition_targetFound, targetIdIs_targetFound]
  simp [htgt, hmiss, hdrag]

/-! ## Claim theorems -/

/-- C1: the spec claims exit is emitted strictly before enter on every
target transition AND that the running enter−exit count stays at 0 or 1
over every finite raw-event sequence.  The code violates the balance: the
`mouseover` branch fires a stored `mouseoutShape` but forgets to clear it
(unlike the flush at the end of `_handleStageEvent`, which does clear it),
so the stale stored exit fires a second time later.  Concretely: hover
shape 1, hover shape 2 (fires `mouseout 1`, leaves it stored), DOM
`mouseout` (fires `mouseout 2`), then a move over empty space re-fires the
stale `mouseout 1` — five-event trace with 2 enters and 3 exits, running
difference −1. -/
theorem c1_enter_exit_balance_violated_by_stale_mouseout :
    (runEvents defaultConfig exSceneAB initialStageState
        [⟨.mousemoveR, ⟨exPosA, none⟩, 1000⟩,
         ⟨.mousemoveR, ⟨exPosB, none⟩, 2000⟩,
         ⟨.mouseoutR, ⟨exPosOut, none⟩, 3000⟩,
         ⟨.mousemoveR, ⟨exPosOut, none⟩, 4000⟩]).2
      = [⟨.mouseover, 1⟩, ⟨.mouseout, 1⟩, ⟨.mouseover, 2⟩,
         ⟨.mouseout, 2⟩, ⟨.mouseout, 1⟩] ∧
    enterExitBalanced
      (runEvents defaultConfig exSceneAB initialStageState
        [⟨.mousemoveR, ⟨exPosA, none⟩, 1000⟩,
         ⟨.mousemoveR, ⟨exPosB, none⟩, 2000⟩,
         ⟨.mouseoutR, ⟨exPosOut, none⟩, 3000⟩,
         ⟨.mousemoveR, ⟨exPosOut, none⟩, 4000⟩]).2 = false ∧
    enterExitDiff
      (runEvents defaultConfig exSceneAB initialStageState
        [⟨.mousemoveR, ⟨exPosA, none⟩, 1000⟩,
         ⟨.mousemoveR, ⟨exPosB, none⟩, 2000⟩,
         ⟨.mouseoutR, ⟨exPosOut, none⟩, 3000⟩,
         ⟨.mousemoveR, ⟨exPosOut, none⟩, 4000⟩]).2 = -1 := by
  decide

/-- C2 (counterexample): a press over shape 1 followed by a release over
shape 2 — the claim says no click fires on shape 2 and its double-click
window is not armed, but the code fires `click` on shape 2 (the
`clickStart` flag is stage-global) and arms shape 2's window. -/
theorem c2_counterexample_cross_node_click :
    (runEvents defaultConfig exSceneAB initialStageState
        [⟨.mousedownR, ⟨exPosA, none⟩, 1000⟩,
         ⟨.mouseupR, ⟨exPosB, none⟩, 2000⟩]).2
      = [⟨.mousedown, 1⟩, ⟨.mouseup, 2⟩, ⟨.click, 2⟩] ∧
    (runEvents defaultConfig exSceneAB initialStageState
        [⟨.mousedownR, ⟨exPosA, none⟩, 1000⟩,
         ⟨.mouseupR, ⟨exPosB, none⟩, 2000⟩]).1.dblFlags = [2] := by
  decide

/-- C2 (amended): click recognition does not require press and release on
the same node.  The `clickStart` flag is stage-global: it is armed by a
press on any node, and a release on any node while it is set fires
`mouseup` then `click` on the released node and arms that node's
double-click window. -/
theorem c2_amended_click_uses_global_clickStart
    (cfg : StageConfig) (now : Int) (s : ShapeData) (st : StageState)
    (hhit : hitPrecondition st s = true)
    (hdown : st.mouseDown = false)
    (hup : st.mouseUp = true)
    (hclick : st.clickStart = true)
    (hmoving : st.drag.moving = false) :
    (detectEventCore cfg now s st).consumed = true ∧
    (detectEventCore cfg now s st).emits
      = [⟨.mouseup, s.id⟩, ⟨.click, s.id⟩] ++
        (if st.dblFlags.contains s.id then [⟨.dblclick, s.id⟩] else []) ∧
    (detectEventCore cfg now s st).st.dblFlags.contains s.id = true ∧
    (detectEventCore cfg now s st).st.clickStart = st.clickStart := by
  rw [detectEventCore_release_mouse cfg now s st hhit hdown hup hclick hmoving]
  refine ⟨rfl, rfl, ?_, rfl⟩
  show (if st.dblFlags.contains s.id then st.dblFlags else s.id :: st.dblFlags).contains s.id = true
  split
  · next hd => exact hd
  · next hd => simp

/-- C2 (witness): releasing over shape 2 after any press fires `click` on
shape 2 even though the press was recorded on another node. -/
theorem c2_amended_click_uses_global_clickStart_witness :
    (detectEventCore defaultConfig 0 exShapeB
        { initialStageState with
            mousePos := some exPosB, mouseUp := true, clickStart := true }).consumed = true ∧
    (detectEventCore defaultConfig 0 exShapeB
        { initialStageState with
            mousePos := some exPosB, mouseUp := true, clickStart := true }).emits
      = [⟨.mouseup, exShapeB.id⟩, ⟨.click, exShapeB.id⟩] ++
        (if ({ initialStageState with
            mousePos := some exPosB, mouseUp := true,
            clickStart := true } : StageState).dblFlags.contains exShapeB.id
          then [⟨.dblclick, exShapeB.id⟩] else []) ∧
    (detectEventCore defaultConfig 0 exShapeB
        { initialStageState with
            mousePos := some exPosB, mouseUp := true,
            clickStart := true }).st.dblFlags.contains exShapeB.id = true ∧
    (detectEventCore defaultConfig 0 exShapeB
        { initialStageState with
            mousePos := some exPosB, mouseUp := true,
            clickStart := true }).st.clickStart
      = ({ initialStageState with
            mousePos := some exPosB, mouseUp := true,
            clickStart := true } : StageState).clickStart :=
  c2_amended_click_uses_global_clickStart defaultConfig 0 exShapeB
    { initialStageState with mousePos := some exPosB, mouseUp := true, clickStart := true }
    (by decide) rfl rfl rfl rfl

/-- C3 (counterexample): hover into shape 1 (event 1, fires `mouseover 1`),
then an event whose pointer is outside the tracked shape 1.  The claim says
`mouseout 1` is emitted during that second raw event; the code emits
nothing during it — it only stores shape 1 as the pending `mouseoutShape`
and clears the target. -/
theorem c3_counterexample_exit_not_emitted_in_same_event :
    (runEvents defaultConfig exSceneA initialStageState
        [⟨.mouseoverR, ⟨exPosA, none⟩, 1000⟩,
         ⟨.mouseoverR, ⟨exPosOut, none⟩, 2000⟩]).2
      = [⟨.mouseover, 1⟩] ∧
    (runEvents defaultConfig exSceneA initialStageState
        [⟨.mouseoverR, ⟨exPosA, none⟩, 1000⟩,
         ⟨.mouseoverR, ⟨exPosOut, none⟩, 2000⟩]).1.targetShape = none ∧
    (runEvents defaultConfig exSceneA initialStageState
        [⟨.mouseoverR, ⟨exPosA, none⟩, 1000⟩,
         ⟨.mouseoverR, ⟨exPosOut, none⟩, 2000⟩]).1.mouseoutShape = some exShapeA := by
  decide

/-- C3 (amended): when the pointer misses the tracked target (no drag
moving), dispatch on that node clears the target, records it as the
pending exit node, and consumes the event — but emits nothing during that
raw event; the stored `mouseout` is emitted by a later
`_handleStageEvent` in which no shape consumes (or, earlier, by the next
`mouseover` branch). -/
theorem c3_amended_exit_deferred :
    (∀ (cfg : StageConfig) (now : Int) (s : ShapeData) (st : StageState),
      targetIdIs st s = true → hitPrecondition st s = false →
      st.drag.moving = false →
      detectEvent cfg now s st =
        ⟨{ st with targetFound := true, targetShape := none, mouseoutShape := some s },
          true, []⟩) ∧
    (∀ (cfg : StageConfig) (layers : List LayerData) (pay : RawPayload)
        (t : Int) (st : StageState) (m : ShapeData),
      (handleLayers cfg t (prepareStageEventState pay t st) layers).consumed = false →
      (handleLayers cfg t (prepareStageEventState pay t st) layers).st.mouseoutShape = some m →
      handleStageEvent cfg layers pay t st =
        ({ (handleLayers cfg t (prepareStageEventState pay t st) layers).st with
            mouseoutShape := none },
          (handleLayers cfg t (prepareStageEventState pay t st) layers).emits ++
            [⟨.mouseout, m.id⟩])) := by
  constructor
  · exact fun cfg now s st h1 h2 h3 => detectEvent_mouseout_branch cfg now s st h1 h2 h3
  · intro cfg layers pay t st m hcons hm
    unfold handleStageEvent
    simp [hcons, hm]

/-- C3 (witness): with shape 1 tracked and the pointer outside it, the
dispatch consumes with no emission and stores the pending exit; a
subsequent stage event over an empty scene flushes exactly one
`mouseout 1`. -/
theorem c3_amended_exit_deferred_witness :
    detectEvent defaultConfig 2000 exShapeA
        { initialStageState with
            targetShape := some exShapeA, mousePos := some exPosOut } =
      ⟨{ ({ initialStageState with
            targetShape := some exShapeA, mousePos := some exPosOut } : StageState) with
          targetFound := true, targetShape := none, mouseoutShape := some exShapeA },
        true, []⟩ ∧
    handleStageEvent defaultConfig [] ⟨exPosOut, none⟩ 3000
        { initialStageState with mouseoutShape := some exShapeA } =
      ({ (handleLayers defaultConfig 3000
            (prepareStageEventState ⟨exPosOut, none⟩ 3000
              { initialStageState with mouseoutShape := some exShapeA }) []).st with
          mouseoutShape := none },
        (handleLayers defaultConfig 3000
            (prepareStageEventState ⟨exPosOut, none⟩ 3000
              { initialStageState with mouseoutShape := some exShapeA }) []).emits ++
          [⟨.mouseout, exShapeA.id⟩]) :=
  ⟨c3_amended_exit_deferred.1 defaultConfig 2000 exShapeA
      { initialStageState with targetShape := some exShapeA, mousePos := some exPosOut }
      rfl rfl rfl,
    c3_amended_exit_deferred.2 defaultConfig [] ⟨exPosOut, none⟩ 3000
      { initialStageState with mouseoutShape := some exShapeA } exShapeA rfl rfl⟩

/-- C4: the dispatch walk is first-hit-wins over the spec-side visit
order: layers in reverse insertion order (invisible or non-listening
layers skipped), children last-added-first with subtrees rooted at a
non-listening node pruned, and the walk is extensionally the flat scan
that stops at (and includes) the first shape whose `_detectEvent`
consumes — so no shape or lower layer is visited after the first
consumer. -/
theorem c4_traversal_first_hit_wins (cfg : StageConfig) (now : Int)
    (st : StageState) (layers : List LayerData) :
    handleLayers cfg now st layers = firstHitScan cfg now st (sceneSpecOrder layers) :=
  handleLayers_eq_scan cfg now layers st

/-- C5 (counterexample): presses/releases on shape 1 at t = 0/50, 200/250,
500/550.  The third release comes 300 ms after the second (within the
400 ms window) but 500 ms after the first.  The claim says the window is
sliding, so the third release should fire a double-click; the code fires
exactly one `dblclick` (at the second release) and none at the third,
because the first release's un-cancelled timeout cleared the flag at
t = 450. -/
theorem c5_counterexample_window_not_sliding :
    (runEvents defaultConfig exSceneA initialStageState
        [⟨.mousedownR, ⟨exPosA, none⟩, 0⟩, ⟨.mouseupR, ⟨exPosA, none⟩, 50⟩,
         ⟨.mousedownR, ⟨exPosA, none⟩, 200⟩, ⟨.mouseupR, ⟨exPosA, none⟩, 250⟩,
         ⟨.mousedownR, ⟨exPosA, none⟩, 500⟩, ⟨.mouseupR, ⟨exPosA, none⟩, 550⟩]).2
      = [⟨.mousedown, 1⟩, ⟨.mouseup, 1⟩, ⟨.click, 1⟩,
         ⟨.mousedown, 1⟩, ⟨.mouseup, 1⟩, ⟨.click, 1⟩, ⟨.dblclick, 1⟩,
         ⟨.mousedown, 1⟩, ⟨.mouseup, 1⟩, ⟨.click, 1⟩] ∧
    ((runEvents defaultConfig exSceneA initialStageState
        [⟨.mousedownR, ⟨exPosA, none⟩, 0⟩, ⟨.mouseupR, ⟨exPosA, none⟩, 50⟩,
         ⟨.mousedownR, ⟨exPosA, none⟩, 200⟩, ⟨.mouseupR, ⟨exPosA, none⟩, 250⟩,
         ⟨.mousedownR, ⟨exPosA, none⟩, 500⟩, ⟨.mouseupR, ⟨exPosA, none⟩, 550⟩]).2.countP
        (fun e => e.kind == .dblclick)) = 1 := by
  decide

/-- C5 (amended): every qualifying release does re-set the per-node window
flag and schedules a fresh 400 ms clear, but the previously scheduled
clears are NOT cancelled (the new timeout is appended, the old ones stay),
and any due clear resets the flag unconditionally — so the window is
bounded by the earliest pending clear rather than sliding.  A `dblclick`
fires at a release exactly when the flag is still set at that moment. -/
theorem c5_amended_release_rearms_without_cancelling
    (cfg : StageConfig) (now : Int) (s : ShapeData) (st : StageState)
    (hhit : hitPrecondition st s = true)
    (hdown : st.mouseDown = false)
    (hup : st.mouseUp = true)
    (hclick : st.clickStart = true)
    (hmoving : st.drag.moving = false) :
    (detectEventCore cfg now s st).st.timeouts
      = st.timeouts ++ [(now + cfg.dblClickWindow, s.id)] ∧
    (detectEventCore cfg now s st).st.dblFlags.contains s.id = true ∧
    ((detectEventCore cfg now s st).emits.contains ⟨.dblclick, s.id⟩
      = st.dblFlags.contains s.id) ∧
    (∀ (t2 : Int) (st2 : StageState) (i : Nat),
      (st2.timeouts.any fun p => decide (p.1 ≤ t2) && p.2 == i) = true →
      (fireDueTimeouts t2 st2).dblFlags.contains i = false) := by
  rw [detectEventCore_release_mouse cfg now s st hhit hdown hup hclick hmoving]
  refine ⟨rfl, ?_, ?_, ?_⟩
  · show (if st.dblFlags.contains s.id then st.dblFlags
        else s.id :: st.dblFlags).contains s.id = true
    split
    · next hd => exact hd
    · next hd => simp
  · cases h : st.dblFlags.contains s.id <;> simp [h]
  · intro t2 st2 i hany
    unfold fireDueTimeouts
    dsimp only
    apply Bool.eq_false_iff.mpr
    intro hc
    have hc2 : i ∈ st2.dblFlags ∧
        ∀ (a : Int) (b : Nat), (a, b) ∈ st2.timeouts → a ≤ t2 → ¬ b = i := by
      simpa using hc
    obtain ⟨p, hp, hpi⟩ := List.any_eq_true.mp hany
    obtain ⟨hple, hpid⟩ : p.1 ≤ t2 ∧ p.2 = i := by simpa using hpi
    exact hc2.2 p.1 p.2 hp hple hpid

/-- C5 (witness): a release on shape 1 with two pending timeouts appends a
third without cancelling the first two, and a flag cleared by a due
timeout stays cleared. -/
theorem c5_amended_release_rearms_without_cancelling_witness :
    (detectEventCore defaultConfig 600 exShapeA
        { initialStageState with
            mousePos := some exPosA, mouseUp := true, clickStart := true,
            timeouts := [(450, 1), (650, 1)] }).st.timeouts
      = [(450, 1), (650, 1)] ++ [(600 + defaultConfig.dblClickWindow, exShapeA.id)] ∧
    (detectEventCore defaultConfig 600 exShapeA
        { initialStageState with
            mousePos := some exPosA, mouseUp := true, clickStart := true,
            timeouts := [(450, 1), (650, 1)] }).st.dblFlags.contains exShapeA.id = true ∧
    ((detectEventCore defaultConfig 600 exShapeA
        { initialStageState with
            mousePos := some exPosA, mouseUp := true, clickStart := true,
            timeouts := [(450, 1), (650, 1)] }).emits.contains ⟨.dblclick, exShapeA.id⟩
      = ({ initialStageState with
            mousePos := some exPosA, mouseUp := true, clickStart := true,
            timeouts := [(450, 1), (650, 1)] } : StageState).dblFlags.contains exShapeA.id) ∧
    (∀ (t2 : Int) (st2 : StageState) (i : Nat),
      (st2.timeouts.any fun p => decide (p.1 ≤ t2) && p.2 == i) = true →
      (fireDueTimeouts t2 st2).dblFlags.contains i = false) :=
  c5_amended_release_rearms_without_cancelling defaultConfig 600 exShapeA
    { initialStageState with
        mousePos := some exPosA, mouseUp := true, clickStart := true,
        timeouts := [(450, 1), (650, 1)] }
    (by decide) rfl rfl rfl rfl

/-- C6 (counterexample): a processed `mousemove` at t = 1000, then
`mousedown` at 2000 and `mouseup` at 2050 (both processed), then a
`mousemove` at t = 2055.  The last move arrives 1055 ms after the last
processed move-class event, far above the 12.5 ms threshold, so the claim
says it must be processed — but the code drops it (2055 − 2050 < 12.5,
because every processed event, not just move-class, resets the shared
`lastEventTime`), emitting nothing. -/
theorem c6_counterexample_throttle_not_from_move_class :
    (runEvents defaultConfig exSceneA initialStageState
        [⟨.mousemoveR, ⟨exPosA, none⟩, 1000⟩,
         ⟨.mousedownR, ⟨exPosA, none⟩, 2000⟩,
         ⟨.mouseupR, ⟨exPosA, none⟩, 2050⟩,
         ⟨.mousemoveR, ⟨exPosA, none⟩, 2055⟩]).2
      = [⟨.mouseover, 1⟩, ⟨.mousedown, 1⟩, ⟨.mouseup, 1⟩, ⟨.click, 1⟩] ∧
    (runEvents defaultConfig exSceneA initialStageState
        [⟨.mousemoveR, ⟨exPosA, none⟩, 1000⟩,
         ⟨.mousedownR, ⟨exPosA, none⟩, 2000⟩,
         ⟨.mouseupR, ⟨exPosA, none⟩, 2050⟩,
         ⟨.mousemoveR, ⟨exPosA, none⟩, 2055⟩]).1.lastEventTime = 2050 := by
  decide

/-- C6 (amended): a move-class event is processed iff the elapsed time
since the last PROCESSED RAW EVENT OF ANY KIND is at least
`1000 / throttle` ms (`Rat.divInt 1000 throttle` is that rational);
sub-threshold moves are dropped entirely, and every event that reaches
`_handleStageEvent` — whatever its kind — resets the shared
`lastEventTime` timestamp. -/
theorem c6_amended_throttle_from_any_processed_event
    (cfg : StageConfig) (layers : List LayerData) (pay : RawPayload)
    (t : Int) (st : StageState) :
    (¬ (((t - st.lastEventTime : Int) : ℚ) ≥ Rat.divInt 1000 cfg.throttle) →
      listenMouseMove cfg layers pay t st = (st, []) ∧
      listenTouchMove cfg layers pay t st = (st, [])) ∧
    ((((t - st.lastEventTime : Int) : ℚ) ≥ Rat.divInt 1000 cfg.throttle) →
      listenMouseMove cfg layers pay t st =
        handleStageEvent cfg layers pay t
          { st with mouseDown := false, mouseUp := false, mouseMove := true } ∧
      listenTouchMove cfg layers pay t st =
        handleStageEvent cfg layers pay t
          { st with touchStart := false, touchEnd := false, touchMove := true }) ∧
    (handleStageEvent cfg layers pay t st).1.lastEventTime = t ∧
    Rat.divInt 1000 cfg.throttle = 1000 / (cfg.throttle : ℚ) := by
  refine ⟨fun h => ⟨?_, ?_⟩, fun h => ⟨?_, ?_⟩, ?_, ?_⟩
  · unfold listenMouseMove; dsimp only; rw [if_neg h]
  · unfold listenTouchMove; dsimp only; rw [if_neg h]
  · unfold listenMouseMove; dsimp only; rw [if_pos h]
  · unfold listenTouchMove; dsimp only; rw [if_pos h]
  · exact (handleStageEvent_fields cfg layers pay t st).1
  · rw [Rat.divInt_eq_div]; norm_num

/-- C6 (witness): with `lastEventTime = 0` and throttle 80, a `mousemove`
at t = 5 is below the 12.5 ms threshold and is dropped whole. -/
theorem c6_amended_throttle_from_any_processed_event_witness :
    listenMouseMove defaultConfig exSceneA ⟨exPosA, none⟩ 5 initialStageState
      = (initialStageState, []) ∧
    listenTouchMove defaultConfig exSceneA ⟨exPosA, none⟩ 5 initialStageState
      = (initialStageState, []) :=
  (c6_amended_throttle_from_any_processed_event defaultConfig exSceneA
    ⟨exPosA, none⟩ 5 initialStageState).1 (by decide)

/-- C7: over any finite sequence of raw move-class events, a dragged node
with constraint `horizontal` keeps its vertical coordinate (`attrs.y`), and
symmetrically `vertical` keeps `attrs.x` — the constraint override restores
the locked coordinate from `lastNodePos` after every position update. -/
theorem c7_drag_constraint_locks_axis
    (cfg : StageConfig) (layers : List LayerData) (st : StageState)
    (evs : List RawEvent) (n : DragNodeData)
    (harm : st.drag.node = some n)
    (hmoves : ∀ e ∈ evs, e.kind = .mousemoveR ∨ e.kind = .touchmoveR) :
    (n.dragConstraint = .horizontal →
      ∃ n2, (runEvents cfg layers st evs).1.drag.node = some n2 ∧ n2.y = n.y) ∧
    (n.dragConstraint = .vertical →
      ∃ n2, (runEvents cfg layers st evs).1.drag.node = some n2 ∧ n2.x = n.x) := by
  obtain ⟨n2, h2, hc2, hy2, hx2⟩ :=
    runEvents_move_locked cfg layers evs st n hmoves harm
  exact ⟨fun hh => ⟨n2, h2, hy2 hh⟩, fun hh => ⟨n2, h2, hx2 hh⟩⟩

/-- C7 (witness): one drag move of the horizontally-constrained node 7
from y = 9 towards (200, 300) leaves y = 9. -/
theorem c7_drag_constraint_locks_axis_witness :
    ∃ n2, (runEvents defaultConfig exSceneA
        { initialStageState with
            mousePos := some exPosA,
            drag := ⟨some exDragNodeH, false, ⟨0, 0⟩⟩ }
        [⟨.mousemoveR, ⟨⟨200, 300⟩, none⟩, 1000⟩]).1.drag.node = some n2 ∧
      n2.y = exDragNodeH.y :=
  (c7_drag_constraint_locks_axis defaultConfig exSceneA
    { initialStageState with
        mousePos := some exPosA,
        drag := ⟨some exDragNodeH, false, ⟨0, 0⟩⟩ }
    [⟨.mousemoveR, ⟨⟨200, 300⟩, none⟩, 1000⟩] exDragNodeH rfl
    (by intro e he; simp at he; simp [he])).1 rfl

/-- C8: each configured rectangular drag bound clamps the candidate
position independently: with `{left: 10, right: 100}`, a candidate
x = −5 lands at 10 and a candidate x = 500 lands at 100; with no bounds
configured the candidate position is taken unchanged. -/
theorem c8_drag_bounds_independent_clamps :
    (∀ (node : DragNodeData) (offset pos : Pos),
      node.dragBounds = ⟨some 10, some 100, none, none⟩ →
      node.dragConstraint = .noneC →
      (pos.x - offset.x = -5 → (dragMoveUpdate node offset pos).x = 10) ∧
      (pos.x - offset.x = 500 → (dragMoveUpdate node offset pos).x = 100)) ∧
    (∀ (node : DragNodeData) (offset pos : Pos),
      node.dragBounds = ⟨none, none, none, none⟩ →
      node.dragConstraint = .noneC →
      (dragMoveUpdate node offset pos).x = pos.x - offset.x ∧
      (dragMoveUpdate node offset pos).y = pos.y - offset.y) := by
  constructor
  · intro node offset pos hb hc
    constructor <;> intro hx <;>
      (unfold dragMoveUpdate setAbsolutePosition; rw [hb, hc]; dsimp only; rw [hx]; norm_num)
  · intro node offset pos hb hc
    unfold dragMoveUpdate setAbsolutePosition
    rw [hb, hc]
    exact ⟨rfl, rfl⟩

/-- C8 (witness): node 8 with bounds `{left: 10, right: 100}` dragged to a
candidate x of −5 is clamped to 10, and to a candidate x of 500 is clamped
to 100. -/
theorem c8_drag_bounds_independent_clamps_witness :
    ((⟨-5, 3⟩ : Pos).x - (⟨0, 0⟩ : Pos).x = -5 →
      (dragMoveUpdate exDragNodeB ⟨0, 0⟩ ⟨-5, 3⟩).x = 10) ∧
    ((⟨-5, 3⟩ : Pos).x - (⟨0, 0⟩ : Pos).x = 500 →
      (dragMoveUpdate exDragNodeB ⟨0, 0⟩ ⟨-5, 3⟩).x = 100) :=
  c8_drag_bounds_independent_clamps.1 exDragNodeB ⟨0, 0⟩ ⟨-5, 3⟩ rfl rfl

/-- C9: `getUserPosition` prefers the touch position and falls back to the
mouse position only when no touch position exists; `_setTouchPosition`
writes `touchPos` only for an event carrying exactly one touch contact and
never resets it; hence once a touch position has been recorded, after any
further raw-event sequence `getUserPosition` still returns the (possibly
stale) touch position, whatever the mouse does. -/
theorem c9_touch_position_priority_and_staleness :
    (∀ st : StageState, st.touchPos = none → getUserPosition st = st.mousePos) ∧
    (∀ (st : StageState) (p : Pos), st.touchPos = some p → getUserPosition st = some p) ∧
    (∀ (st : StageState) (ts : Option (List Pos)),
      (setTouchPositionSt st ts).touchPos
        = (match ts with | some [p] => some p | _ => st.touchPos)) ∧
    (∀ (cfg : StageConfig) (layers : List LayerData) (st : StageState)
        (evs : List RawEvent), st.touchPos.isSome = true →
      (runEvents cfg layers st evs).1.touchPos.isSome = true ∧
      getUserPosition (runEvents cfg layers st evs).1
        = (runEvents cfg layers st evs).1.touchPos) := by
  refine ⟨?_, ?_, ?_, ?_⟩
  · intro st h; unfold getUserPosition; rw [h]
  · intro st p h; unfold getUserPosition; rw [h]
  · exact fun st ts => (setTouchPositionSt_fields st ts).1
  · intro cfg layers st evs h
    have hs := runEvents_touchPos cfg layers evs st h
    refine ⟨hs, ?_⟩
    obtain ⟨p, hp⟩ := Option.isSome_iff_exists.mp hs
    unfold getUserPosition
    rw [hp]

/-- C9 (witness): once `touchPos = (1, 2)` is recorded, a later processed
mouse move leaves `getUserPosition` returning the stored touch position. -/
theorem c9_touch_position_priority_and_staleness_witness :
    (runEvents defaultConfig exSceneA
        { initialStageState with touchPos := some ⟨1, 2⟩ }
        [⟨.mousemoveR, ⟨exPosA, none⟩, 1000⟩]).1.touchPos.isSome = true ∧
    getUserPosition (runEvents defaultConfig exSceneA
        { initialStageState with touchPos := some ⟨1, 2⟩ }
        [⟨.mousemoveR, ⟨exPosA, none⟩, 1000⟩]).1
      = (runEvents defaultConfig exSceneA
        { initialStageState with touchPos := some ⟨1, 2⟩ }
        [⟨.mousemoveR, ⟨exPosA, none⟩, 1000⟩]).1.touchPos :=
  c9_touch_position_priority_and_staleness.2.2.2 defaultConfig exSceneA
    { initialStageState with touchPos := some ⟨1, 2⟩ }
    [⟨.mousemoveR, ⟨exPosA, none⟩, 1000⟩] rfl

/-- C10: when `_detectEvent` runs on the currently tracked target and any
hit precondition fails — the shape is hidden, the channel position is
undefined, or the hit test is negative — with no drag moving, the dispatch
clears the tracked target, records the shape as the pending exit
(`mouseoutShape`) node, and reports the event consumed. -/
theorem c10_tracked_target_precondition_failure
    (cfg : StageConfig) (now : Int) (s : ShapeData) (st : StageState)
    (htgt : targetIdIs st s = true)
    (hmiss : s.visible = false ∨ getUserPosition st = none ∨
      (∀ p, getUserPosition st = some p → s.intersects p = false))
    (hdrag : st.drag.moving = false) :
    (detectEvent cfg now s st).st.targetShape = none ∧
    (detectEvent cfg now s st).st.mouseoutShape = some s ∧
    (detectEvent cfg now s st).consumed = true := by
  have hmiss2 : hitPrecondition st s = false := by
    unfold hitPrecondition
    rcases hmiss with h | h | h
    · simp [h]
    · rw [h]; simp
    · cases hp : getUserPosition st with
      | none => simp
      | some p => simp [h p hp]
  rw [detectEvent_mouseout_branch cfg now s st htgt hmiss2 hdrag]
  exact ⟨rfl, rfl, rfl⟩

/-- C10 (witness): merely hiding the tracked shape 1 (pointer still over
its region) makes the dispatch clear the target, store the pending exit,
and consume the event. -/
theorem c10_tracked_target_precondition_failure_witness :
    (detectEvent defaultConfig 1000 exShapeAHidden
        { initialStageState with
            targetShape := some exShapeAHidden,
            mousePos := some exPosA }).st.targetShape = none ∧
    (detectEvent defaultConfig 1000 exShapeAHidden
        { initialStageState with
            targetShape := some exShapeAHidden,
            mousePos := some exPosA }).st.mouseoutShape = some exShapeAHidden ∧
    (detectEvent defaultConfig 1000 exShapeAHidden
        { initialStageState with
            targetShape := some exShapeAHidden,
            mousePos := some exPosA }).consumed = true :=
  c10_tracked_target_precondition_failure defaultConfig 1000 exShapeAHidden
    { initialStageState with
        targetShape := some exShapeAHidden, mousePos := some exPosA }
    rfl (Or.inl rfl) rfl
